import Mathlib

/-!
Shallow embedding of the Rentverse backend's authentication / lockout / MFA /
lease-signing logic (src/routes/auth.js, src/routes/lease.js,
src/services/leases.service.js), with theorems settling the specification
claims about it.

Modelling conventions:
  * Database rows are Lean structures; the database is lists of rows.
  * Record ids are `String` (Prisma cuid strings).
  * `bcrypt.compare(password, user.password)` is modelled as string equality
    with the stored credential (the hash is abstracted away).
  * `speakeasy.totp.verify {secret, token, window}` is an uninterpreted
    parameter `totp : String → String → Nat → Bool` (secret, code, window).
  * Timestamps are `Int` milliseconds.  Activity-log lists are kept
    newest-first (a write prepends), so the Prisma query
    `orderBy createdAt desc, take n` becomes `List.filter` + `List.take`.
  * JavaScript `null`/`undefined` string fields are `Option String`; the
    JS truthiness test `!s` on a string field is `s = none ∨ s = some ""`.
-/

namespace Rentverse

/-- A row of the `User` table (the fields the modelled routes touch). -/
structure User where
  id : String
  email : String
  password : String
  isActive : Bool
  role : String
  mfaEnabled : Bool
  mfaSecret : Option String
  deriving Repr, DecidableEq

/-- A row of the `ActivityLog` table. -/
structure LogEntry where
  userId : String
  action : String
  status : String
  ipAddress : String
  userAgent : String
  createdAt : Int
  deriving Repr, DecidableEq

/-- A row of the `Notification` table. -/
structure Notification where
  userId : String
  title : String
  message : String
  type : String
  deriving Repr, DecidableEq

/-- A row of the `Lease` table (the fields `signLease` touches). -/
structure Lease where
  id : String
  tenantId : String
  landlordId : String
  tenantSignature : Option String
  landlordSignature : Option String
  tenantSignedAt : Option Int
  landlordSignedAt : Option Int
  signatureStatus : String
  deriving Repr, DecidableEq

/-! ## Lease signing — src/services/leases.service.js -/

/-- The two error throws of `signLease`: `"Lease not found"` and
`"UNAUTHORIZED"`. -/
inductive SignError where
  | notFound
  | unauthorized
  deriving Repr, DecidableEq

/-- `prisma.lease.findUnique({ where: { id } })`. -/
def findLease (leases : List Lease) (leaseId : String) : Option Lease :=
  leases.find? (fun l => l.id == leaseId)

/-- `prisma.lease.update({ where: { id }, data })`: replace the row with the
given id. -/
def storeLease (leases : List Lease) (leaseId : String) (l' : Lease) :
    List Lease :=
  leases.map (fun l => if l.id == leaseId then l' else l)

/-- `signLease(leaseId, signature, userId)` from
src/services/leases.service.js.  The `signature` argument is `Option String`
because the JS parameter may be `null`; the HTTP route rejects falsy
signatures before calling the service.  Returns the updated row and the
updated table, or the thrown error. -/
def signLease (leases : List Lease) (leaseId : String)
    (signature : Option String) (userId : String) (now : Int) :
    Except SignError (Lease × List Lease) :=
  match findLease leases leaseId with
  | none => .error .notFound
  | some lease =>
    let isTenant := lease.tenantId == userId
    let isLandlord := lease.landlordId == userId
    if !isTenant && !isLandlord then
      .error .unauthorized
    else
      let currentTenantSigned := lease.tenantSignature != none
      let currentLandlordSigned := lease.landlordSignature != none
      let newTenantSigned := if isTenant then true else currentTenantSigned
      let newLandlordSigned := if isLandlord then true else currentLandlordSigned
      let newStatus :=
        if newTenantSigned && newLandlordSigned then "FULLY_SIGNED"
        else if newTenantSigned then "TENANT_SIGNED"
        else if newLandlordSigned then "LANDLORD_SIGNED"
        else "PENDING"
      let updated : Lease :=
        { lease with
          tenantSignature :=
            if isTenant then signature else lease.tenantSignature
          landlordSignature :=
            if isLandlord then signature else lease.landlordSignature
          tenantSignedAt :=
            if isTenant then some now else lease.tenantSignedAt
          landlordSignedAt :=
            if isLandlord then some now else lease.landlordSignedAt
          signatureStatus := newStatus }
      .ok (updated, storeLease leases leaseId updated)

/-- The route handler `POST /:id/sign` from src/routes/lease.js, after the
`auth` middleware: returns the HTTP status code and the lease table.  A falsy
(`null`/missing/empty) `req.body.signature` is rejected with 400 before the
service runs. -/
def leaseSignHandler (leases : List Lease) (leaseId : String)
    (signature : Option String) (userId : String) (now : Int) :
    Nat × List Lease :=
  if signature.getD "" == "" then
    (400, leases)
  else
    match signLease leases leaseId signature userId now with
    | .error .notFound => (404, leases)
    | .error .unauthorized => (403, leases)
    | .ok (_, leases') => (200, leases')

/-- The status value the spec says is determined by the pair
(tenantSignature ≠ null, landlordSignature ≠ null) — spec §3 rule, used to
compare against what the code stores. -/
def statusOf (tenantSigned landlordSigned : Bool) : String :=
  if tenantSigned && landlordSigned then "FULLY_SIGNED"
  else if tenantSigned then "TENANT_SIGNED"
  else if landlordSigned then "LANDLORD_SIGNED"
  else "PENDING"

/-! ## Authentication — src/routes/auth.js -/

/-- The login request: body fields plus the header/socket data the handler
reads.  `ip`, `xForwardedFor`, `remoteAddress` and `userAgent` are `Option`
because Express may leave any of them undefined. -/
structure Request where
  email : String
  password : String
  ip : Option String
  xForwardedFor : Option String
  remoteAddress : Option String
  userAgent : Option String
  deriving Repr, DecidableEq

/-- The database state the auth routes touch. -/
structure DB where
  users : List User
  logs : List LogEntry
  notifications : List Notification
  deriving Repr, DecidableEq

/-- Which side-channel operations fail on this request.  The code swallows
all three kinds of failure; the model threads them as flags so the theorems
can quantify over them. -/
structure Faults where
  logWriteFails : Bool
  countReadFails : Bool
  zeroTrustFails : Bool
  deriving Repr, DecidableEq

/-- No side-channel failure. -/
def Faults.none : Faults :=
  { logWriteFails := false, countReadFails := false, zeroTrustFails := false }

/-- Does the character list start with the pattern? -/
def charsStartWith : List Char → List Char → Bool
  | _, [] => true
  | [], _ :: _ => false
  | c :: cs, d :: ds => c == d && charsStartWith cs ds

/-- Does the pattern occur anywhere in the character list? -/
def charsContain : List Char → List Char → Bool
  | [], pat => charsStartWith [] pat
  | c :: cs, pat => charsStartWith (c :: cs) pat || charsContain cs pat

/-- Replace the first occurrence of `pat` by `rep` (the semantics of the JS
`String.prototype.replace` with a string pattern). -/
def charsReplaceFirst : List Char → List Char → List Char → List Char
  | [], _, _ => []
  | c :: cs, pat, rep =>
    if charsStartWith (c :: cs) pat then rep ++ (c :: cs).drop pat.length
    else c :: charsReplaceFirst cs pat rep

/-- JS `s.includes(sub)`. -/
def strContains (s sub : String) : Bool :=
  charsContain s.data sub.data

/-- JS `s.replace(pat, rep)` (first occurrence only). -/
def strReplaceFirst (s pat rep : String) : String :=
  ⟨charsReplaceFirst s.data pat.data rep.data⟩

/-- The action/status split of `logActivity` (auth.js lines 51-60):
`_SUCCESS` ↦ status SUCCESS, `_FAILED` ↦ status FAILURE, otherwise INFO with
the action kept whole. -/
def actionStatus (fullAction : String) : String × String :=
  if strContains fullAction "_SUCCESS" then
    (strReplaceFirst fullAction "_SUCCESS" "", "SUCCESS")
  else if strContains fullAction "_FAILED" then
    (strReplaceFirst fullAction "_FAILED" "", "FAILURE")
  else
    (fullAction, "INFO")

/-- `req.ip || req.headers['x-forwarded-for'] || req.socket.remoteAddress ||
'0.0.0.0'` (auth.js line 62). -/
def reqLogIp (req : Request) : String :=
  (((req.ip).orElse (fun _ => req.xForwardedFor)).orElse
    (fun _ => req.remoteAddress)).getD "0.0.0.0"

/-- `req.headers['user-agent'] || 'Unknown'` (auth.js line 70). -/
def reqLogUA (req : Request) : String :=
  req.userAgent.getD "Unknown"

/-- The `ActivityLog` row `logActivity` writes. -/
def mkLogEntry (userId : String) (fullAction : String) (req : Request)
    (now : Int) : LogEntry :=
  { userId := userId
    action := (actionStatus fullAction).1
    status := (actionStatus fullAction).2
    ipAddress := reqLogIp req
    userAgent := reqLogUA req
    createdAt := now }

/-- `logActivity` (auth.js lines 49-78): prepend the new row (logs are kept
newest-first); a failed write is swallowed and leaves the table unchanged. -/
def logActivity (writeFails : Bool) (logs : List LogEntry) (userId : String)
    (fullAction : String) (req : Request) (now : Int) : List LogEntry :=
  if writeFails then logs else mkLogEntry userId fullAction req now :: logs

/-- 15 minutes in milliseconds. -/
def lockWindowMs : Int := 15 * 60 * 1000

/-- The count query of `isAccountLocked` (auth.js lines 86-93): LOGIN/FAILURE
rows of the user with `createdAt ≥ now − 15 min`. -/
def failedLoginCount (logs : List LogEntry) (userId : String) (now : Int) :
    Nat :=
  (logs.filter (fun l =>
    l.userId == userId && l.action == "LOGIN" && l.status == "FAILURE" &&
    decide (now - lockWindowMs ≤ l.createdAt))).length

/-- `isAccountLocked` (auth.js lines 81-105): ≥ 5 recent failures locks; a
failing count read is caught and yields `false`. -/
def isAccountLocked (countReadFails : Bool) (logs : List LogEntry)
    (userId : String) (now : Int) : Bool :=
  if countReadFails then false
  else decide (5 ≤ failedLoginCount logs userId now)

/-- `prisma.user.findUnique({ where: { email } })`. -/
def findUserByEmail (users : List User) (email : String) : Option User :=
  users.find? (fun u => u.email == email)

/-- `prisma.user.findUnique({ where: { id } })`. -/
def findUserById (users : List User) (userId : String) : Option User :=
  users.find? (fun u => u.id == userId)

/-- The JWT payload `jwt.sign({userId, email, role}, …)`. -/
structure Token where
  userId : String
  email : String
  role : String
  deriving Repr, DecidableEq

/-- The token the login endpoints sign for a user. -/
def mkToken (u : User) : Token :=
  { userId := u.id, email := u.email, role := u.role }

/-- 30 days in milliseconds. -/
def historyWindowMs : Int := 30 * 24 * 60 * 60 * 1000

/-- The zero-trust query (auth.js lines 327-336): last-30-days LOGIN/SUCCESS
rows of the user, newest first, at most 20.  `logs` is newest-first, so the
`orderBy createdAt desc` of the query is the list order. -/
def recentSuccessLogins (logs : List LogEntry) (userId : String) (now : Int) :
    List LogEntry :=
  (logs.filter (fun l =>
    l.userId == userId && l.action == "LOGIN" && l.status == "SUCCESS" &&
    decide (now - historyWindowMs ≤ l.createdAt))).take 20

/-- `recentLogins.slice(1)` (auth.js line 342): skip the log just created. -/
def priorHistory (logs : List LogEntry) (userId : String) (now : Int) :
    List LogEntry :=
  (recentSuccessLogins logs userId now).drop 1

/-- `currentIp` of the zero-trust block (auth.js line 339) — note: unlike
`reqLogIp` there is no `'0.0.0.0'` fallback here. -/
def reqCurrentIp (req : Request) : Option String :=
  ((req.ip).orElse (fun _ => req.xForwardedFor)).orElse
    (fun _ => req.remoteAddress)

/-- `isNewDevice` (auth.js line 344): no prior-history row has the current
user-agent header (a row never equals an absent header). -/
def isNewDevice (logs : List LogEntry) (userId : String) (req : Request)
    (now : Int) : Bool :=
  !((priorHistory logs userId now).any
    (fun l => some l.userAgent == req.userAgent))

/-- `isNewIp` (auth.js line 345). -/
def isNewIp (logs : List LogEntry) (userId : String) (req : Request)
    (now : Int) : Bool :=
  !((priorHistory logs userId now).any
    (fun l => some l.ipAddress == reqCurrentIp req))

/-- The notification row the zero-trust block creates (auth.js lines
351-358). -/
def mkZeroTrustNotification (userId : String) (newDevice : Bool)
    (currentIp : Option String) (now : Int) : Notification :=
  { userId := userId
    title := "Security Alert: New Sign-in"
    message := "We detected a login from a new " ++
      (if newDevice then "device" else "IP address") ++
      ".\nIP: " ++ toString currentIp ++ "\nTime: " ++ toString now
    type := "security" }

/-- The zero-trust block (auth.js lines 326-364), run after the success log
write: create one notification when the device or the IP is new; the whole
block is inside try/catch, so a failure leaves the table unchanged. -/
def zeroTrustStep (fails : Bool) (logs : List LogEntry)
    (notifications : List Notification) (user : User) (req : Request)
    (now : Int) : List Notification :=
  if fails then notifications
  else
    let newDevice := isNewDevice logs user.id req now
    let newIp := isNewIp logs user.id req now
    if newDevice || newIp then
      mkZeroTrustNotification user.id newDevice (reqCurrentIp req) now ::
        notifications
    else notifications

/-- The outcome of `POST /login`. -/
inductive LoginResult where
  | invalidCredentials
  | accountLocked
  | mfaRequired (userId : String)
  | success (user : User) (token : Token)
  deriving Repr, DecidableEq

/-- The HTTP status the handler sends for each outcome. -/
def LoginResult.httpStatus : LoginResult → Nat
  | .invalidCredentials => 401
  | .accountLocked => 423
  | .mfaRequired _ => 200
  | .success _ _ => 200

/-- The `POST /login` handler (auth.js lines 286-396), after express-validator
accepted the body.  Returns the outcome and the database after the attempt. -/
def login (f : Faults) (db : DB) (req : Request) (now : Int) :
    LoginResult × DB :=
  match findUserByEmail db.users req.email with
  | none => (.invalidCredentials, db)
  | some user =>
    if !user.isActive then
      (.invalidCredentials, db)
    else if isAccountLocked f.countReadFails db.logs user.id now then
      let logs := logActivity f.logWriteFails db.logs user.id
        "LOGIN_BLOCKED" req now
      (.accountLocked, { db with logs := logs })
    else if req.password != user.password then
      let logs := logActivity f.logWriteFails db.logs user.id
        "LOGIN_FAILED" req now
      (.invalidCredentials, { db with logs := logs })
    else
      let logs := logActivity f.logWriteFails db.logs user.id
        "LOGIN_SUCCESS" req now
      let notifications := zeroTrustStep f.zeroTrustFails logs
        db.notifications user req now
      let db' : DB := { db with logs := logs, notifications := notifications }
      if user.mfaEnabled then
        (.mfaRequired user.id, db')
      else
        (.success user (mkToken user), db')

/-! ## MFA endpoints — src/routes/auth.js lines 1054-1268 -/

/-- The outcome of `POST /mfa/login`. -/
inductive MfaLoginResult where
  | badRequest
  | notConfigured
  | invalidCode
  | success (user : User) (token : Token)
  deriving Repr, DecidableEq

/-- The HTTP status `/mfa/login` sends for each outcome. -/
def MfaLoginResult.httpStatus : MfaLoginResult → Nat
  | .badRequest => 400
  | .notConfigured => 400
  | .invalidCode => 401
  | .success _ _ => 200

/-- JS truthiness test `!s` for a nullable string: missing or empty. -/
def optFalsy (s : Option String) : Bool :=
  s.getD "" == ""

/-- The `POST /mfa/login` handler (auth.js lines 1054-1130).  `totp` models
`speakeasy.totp.verify` as (secret, code, window) ↦ verified; the route uses
window 2.  Note the handler checks neither `isActive` nor the lockout
counter. -/
def mfaLogin (totp : String → String → Nat → Bool) (db : DB)
    (userId : Option String) (code : Option String) : MfaLoginResult :=
  if optFalsy userId || optFalsy code then
    .badRequest
  else
    match findUserById db.users (userId.getD "") with
    | none => .notConfigured
    | some user =>
      if !user.mfaEnabled || optFalsy user.mfaSecret then
        .notConfigured
      else if totp (user.mfaSecret.getD "") (code.getD "") 2 then
        .success user (mkToken user)
      else
        .invalidCode

/-- The outcome of `POST /mfa/verify`. -/
inductive MfaVerifyResult where
  | invalidLength
  | notSetup
  | invalidCode
  | enabled
  deriving Repr, DecidableEq

/-- The HTTP status `/mfa/verify` sends for each outcome. -/
def MfaVerifyResult.httpStatus : MfaVerifyResult → Nat
  | .invalidLength => 400
  | .notSetup => 400
  | .invalidCode => 400
  | .enabled => 200

/-- `prisma.user.update({ where: { id }, data })` on the user table. -/
def updateUser (users : List User) (userId : String) (upd : User → User) :
    List User :=
  users.map (fun u => if u.id == userId then upd u else u)

/-- The `POST /mfa/verify` handler (auth.js lines 1201-1268), after the `auth`
middleware authenticated `userId`.  `!token || token.length !== 6` rejects
the code; on a verified code the user's `mfaEnabled` is set; otherwise the
database is untouched. -/
def mfaVerify (totp : String → String → Nat → Bool) (db : DB)
    (userId : String) (code : Option String) : MfaVerifyResult × DB :=
  if optFalsy code || (code.getD "").length != 6 then
    (.invalidLength, db)
  else
    match findUserById db.users userId with
    | none => (.notSetup, db)
    | some user =>
      if optFalsy user.mfaSecret then
        (.notSetup, db)
      else if totp (user.mfaSecret.getD "") (code.getD "") 2 then
        (.enabled,
          { db with users := (updateUser db.users userId
              (fun u => { u with mfaEnabled := true })) })
      else
        (.invalidCode, db)

/-! ## Concrete fixtures used by witnesses and counterexamples -/

/-- An active user with no MFA. -/
def alice : User :=
  { id := "u1", email := "alice@example.com", password := "hunter2",
    isActive := true, role := "USER", mfaEnabled := false, mfaSecret := none }

/-- The same account, deactivated. -/
def aliceInactive : User := { alice with isActive := false }

/-- The same account with MFA configured. -/
def aliceMfa : User :=
  { alice with mfaEnabled := true, mfaSecret := some "JBSWY3DP" }

/-- A LOGIN/FAILURE row for `alice` at time `t`. -/
def failLog (t : Int) : LogEntry :=
  { userId := "u1", action := "LOGIN", status := "FAILURE",
    ipAddress := "198.51.100.7", userAgent := "cli", createdAt := t }

/-- Five failures, all inside the 15-minute window of `now = 1000`. -/
def fiveFailures : List LogEntry :=
  [failLog 900, failLog 800, failLog 700, failLog 600, failLog 500]

/-- A prior successful login of `alice` from Firefox at 203.0.113.5. -/
def oldSuccessLog : LogEntry :=
  { userId := "u1", action := "LOGIN", status := "SUCCESS",
    ipAddress := "203.0.113.5", userAgent := "Firefox", createdAt := 400 }

/-- A login request for `alice` with the correct password, from the IP of
`oldSuccessLog` but a new user-agent. -/
def baseReq : Request :=
  { email := "alice@example.com", password := "hunter2",
    ip := some "203.0.113.5", xForwardedFor := none, remoteAddress := none,
    userAgent := some "Chrome" }

/-- The same request with a wrong password. -/
def wrongPwReq : Request := { baseReq with password := "letmein" }

/-- A login request for an email that has no account. -/
def ghostReq : Request := { baseReq with email := "ghost@example.com" }

/-- The MFA account, deactivated — and, with `fiveFailures` on file, also
locked out. -/
def aliceMfaInactive : User := { aliceMfa with isActive := false }

/-- A lease nobody has signed yet. -/
def pendingLease : Lease :=
  { id := "L1", tenantId := "T1", landlordId := "G1",
    tenantSignature := none, landlordSignature := none,
    tenantSignedAt := none, landlordSignedAt := none,
    signatureStatus := "PENDING" }

/-- `pendingLease` after the tenant signed at time 5. -/
def tenantSignedLease : Lease :=
  { pendingLease with
    tenantSignature := some "sig-tenant", tenantSignedAt := some 5,
    signatureStatus := "TENANT_SIGNED" }

/-- `tenantSignedLease` after the landlord signed at time 6. -/
def fullySignedLease : Lease :=
  { tenantSignedLease with
    landlordSignature := some "sig-landlord", landlordSignedAt := some 6,
    signatureStatus := "FULLY_SIGNED" }

/-! ## Theorems -/

/-- A log row whose action is not LOGIN never counts toward the lockout
counter. -/
theorem failedLoginCount_cons_of_ne (l : LogEntry) (logs : List LogEntry)
    (uid : String) (now : Int) (h : (l.action == "LOGIN") = false) :
    failedLoginCount (l :: logs) uid now = failedLoginCount logs uid now := by
  simp [failedLoginCount, List.filter_cons, h]

/-- Writing the LOGIN/SUCCESS row puts it at the head of the zero-trust
query result, in front of at most 19 older successes. -/
theorem recentSuccessLogins_cons_success (logs : List LogEntry) (uid : String)
    (req : Request) (now : Int) :
    recentSuccessLogins (mkLogEntry uid "LOGIN_SUCCESS" req now :: logs)
        uid now =
      mkLogEntry uid "LOGIN_SUCCESS" req now ::
        (recentSuccessLogins logs uid now).take 19 := by
  have h1 : (mkLogEntry uid "LOGIN_SUCCESS" req now).action = "LOGIN" := rfl
  have h2 : (mkLogEntry uid "LOGIN_SUCCESS" req now).status = "SUCCESS" := rfl
  have h3 : (mkLogEntry uid "LOGIN_SUCCESS" req now).userId = uid := rfl
  have h4 : now ≤
      (mkLogEntry uid "LOGIN_SUCCESS" req now).createdAt + historyWindowMs := by
    show now ≤ now + historyWindowMs
    have : (0 : Int) ≤ historyWindowMs := by norm_num [historyWindowMs]
    omega
  simp [recentSuccessLogins, List.filter_cons, h1, h2, h3, h4,
    List.take_succ_cons, List.take_take]

/-- How the success branch of `login` transforms the database. -/
theorem login_success_db (db : DB) (req : Request) (now : Int) (user : User)
    (hfind : findUserByEmail db.users req.email = some user)
    (hactive : user.isActive = true)
    (hnotlocked : failedLoginCount db.logs user.id now < 5)
    (hpw : req.password = user.password) :
    (login Faults.none db req now).2 =
      { db with
        logs := mkLogEntry user.id "LOGIN_SUCCESS" req now :: db.logs
        notifications := zeroTrustStep false
          (mkLogEntry user.id "LOGIN_SUCCESS" req now :: db.logs)
          db.notifications user req now } := by
  have hlock : isAccountLocked false db.logs user.id now = false := by
    simp [isAccountLocked]; omega
  have hpw' : (req.password != user.password) = false := by
    simp [hpw]
  unfold login
  rw [hfind]
  cases hm : user.mfaEnabled <;>
    simp [hactive, Faults.none, hlock, hpw', hm, logActivity]

/-- C1 (amended: restricted to active accounts): for every active user with
at least 5 FAILURE-status LOGIN entries in the trailing 15-minute window,
login returns AccountLocked (HTTP 423) regardless of the submitted password;
the blocked attempt is recorded as action LOGIN_BLOCKED with status INFO,
which does not change the failure counter. -/
theorem c1_lockout_blocks_before_password (db : DB) (req : Request)
    (now : Int) (user : User)
    (hfind : findUserByEmail db.users req.email = some user)
    (hactive : user.isActive = true)
    (hcount : 5 ≤ failedLoginCount db.logs user.id now) :
    (login Faults.none db req now).1 = .accountLocked ∧
    ((login Faults.none db req now).1).httpStatus = 423 ∧
    (login Faults.none db req now).2.logs =
      mkLogEntry user.id "LOGIN_BLOCKED" req now :: db.logs ∧
    (mkLogEntry user.id "LOGIN_BLOCKED" req now).action = "LOGIN_BLOCKED" ∧
    (mkLogEntry user.id "LOGIN_BLOCKED" req now).status = "INFO" ∧
    failedLoginCount (login Faults.none db req now).2.logs user.id now =
      failedLoginCount db.logs user.id now := by
  have hlock : isAccountLocked false db.logs user.id now = true := by
    simp [isAccountLocked, hcount]
  have hres : login Faults.none db req now =
      (.accountLocked,
        { db with
          logs := mkLogEntry user.id "LOGIN_BLOCKED" req now :: db.logs }) := by
    unfold login
    rw [hfind]
    simp [hactive, Faults.none, hlock, logActivity]
  refine ⟨by rw [hres], by rw [hres]; rfl, by rw [hres], rfl, rfl, ?_⟩
  rw [hres]
  exact failedLoginCount_cons_of_ne _ _ _ _ rfl

/-- C1 witness: `alice` with five fresh failures is blocked even on a
wrong-password attempt. -/
theorem c1_witness :
    (login Faults.none ⟨[alice], fiveFailures, []⟩ wrongPwReq 1000).1 =
      .accountLocked :=
  (c1_lockout_blocks_before_password ⟨[alice], fiveFailures, []⟩ wrongPwReq
    1000 alice (by decide) (by decide) (by decide)).1

/-- C1 counterexample: an inactive user with five FAILURE LOGIN entries
inside the window gets 401 Invalid credentials, not 423 AccountLocked — the
`isActive` check runs before the lockout check. -/
theorem c1_counterexample :
    findUserByEmail [aliceInactive] baseReq.email = some aliceInactive ∧
    aliceInactive.id = "u1" ∧
    5 ≤ failedLoginCount fiveFailures "u1" 1000 ∧
    (login Faults.none ⟨[aliceInactive], fiveFailures, []⟩ baseReq 1000).1 =
      .invalidCredentials ∧
    ((login Faults.none ⟨[aliceInactive], fiveFailures, []⟩ baseReq
        1000).1).httpStatus = 401 := by
  decide

/-- C2 (amended: the notification fires when the device **or** the IP is
new, not only when both are): after a successful password login the handler
writes the LOGIN/SUCCESS row, then creates exactly one notification
precisely when the current user-agent matches no entry of the prior history
(last 20 successes in 30 days, the fresh row excluded) or the current IP
matches no such entry; a user with no prior successful logins gets exactly
one notification. -/
theorem c2_new_context_notification (db : DB) (req : Request) (now : Int)
    (user : User)
    (hfind : findUserByEmail db.users req.email = some user)
    (hactive : user.isActive = true)
    (hnotlocked : failedLoginCount db.logs user.id now < 5)
    (hpw : req.password = user.password) :
    (login Faults.none db req now).2.logs =
      mkLogEntry user.id "LOGIN_SUCCESS" req now :: db.logs ∧
    (login Faults.none db req now).2.notifications.length =
      (if isNewDevice (login Faults.none db req now).2.logs user.id req now ||
          isNewIp (login Faults.none db req now).2.logs user.id req now
       then db.notifications.length + 1
       else db.notifications.length) ∧
    (recentSuccessLogins db.logs user.id now = [] →
      (login Faults.none db req now).2.notifications.length =
        db.notifications.length + 1) := by
  have hdb := login_success_db db req now user hfind hactive hnotlocked hpw
  refine ⟨by rw [hdb], ?_, ?_⟩
  · rw [hdb]
    simp only [zeroTrustStep, if_false, Bool.false_eq_true, reduceIte]
    split <;> simp
  · intro hempty
    have hprior : priorHistory
        (mkLogEntry user.id "LOGIN_SUCCESS" req now :: db.logs)
        user.id now = [] := by
      simp [priorHistory, recentSuccessLogins_cons_success, hempty]
    have hnew : isNewDevice
        (mkLogEntry user.id "LOGIN_SUCCESS" req now :: db.logs)
        user.id req now = true := by
      simp [isNewDevice, hprior]
    rw [hdb]
    simp [zeroTrustStep, hnew]

/-- C2 witness: a first-ever login creates exactly one notification. -/
theorem c2_witness :
    (login Faults.none ⟨[alice], [], []⟩ baseReq 1000).2.notifications.length
      = 1 :=
  (c2_new_context_notification ⟨[alice], [], []⟩ baseReq 1000 alice
    (by decide) (by decide) (by decide) (by decide)).2.2 (by decide)

/-- C2 counterexample: a login whose IP matches a prior-history entry but
whose user-agent does not still creates a notification, so "precisely when
neither matches" is false on the code. -/
theorem c2_counterexample :
    (login Faults.none ⟨[alice], [oldSuccessLog], []⟩ baseReq 1000).1 =
      .success alice (mkToken alice) ∧
    ((priorHistory
        (login Faults.none ⟨[alice], [oldSuccessLog], []⟩ baseReq 1000).2.logs
        "u1" 1000).any
      (fun l => some l.ipAddress == reqCurrentIp baseReq)) = true ∧
    (login Faults.none ⟨[alice], [oldSuccessLog], []⟩ baseReq
      1000).2.notifications.length = 1 := by
  decide

/-- C6: `/mfa/verify` rejects any code that is not six characters long with
a validation error and no state change; with a stored secret, a 6-character
code enables MFA exactly when the TOTP verifier (window 2) accepts it, the
successful case sets only `mfaEnabled` (every user's `mfaSecret` is kept),
and the failing case leaves the database unchanged. -/
theorem c6_mfa_verify (totp : String → String → Nat → Bool) (db : DB)
    (uid : String) (code : Option String) :
    ((code.getD "").length ≠ 6 → mfaVerify totp db uid code =
      (.invalidLength, db)) ∧
    (∀ user secret c, findUserById db.users uid = some user →
      user.mfaSecret = some secret → secret ≠ "" → code = some c →
      c.length = 6 →
      ((mfaVerify totp db uid code).1 = .enabled ↔ totp secret c 2 = true) ∧
      (totp secret c 2 = true →
        mfaVerify totp db uid code =
          (.enabled, { db with users := (updateUser db.users uid
              (fun u => { u with mfaEnabled := true })) }) ∧
        (updateUser db.users uid (fun u => { u with mfaEnabled := true })).map
            User.mfaSecret = db.users.map User.mfaSecret) ∧
      (totp secret c 2 = false →
        mfaVerify totp db uid code = (.invalidCode, db))) := by
  constructor
  · intro hlen
    have hguard : (optFalsy code || (code.getD "").length != 6) = true := by
      simp [hlen]
    unfold mfaVerify
    rw [hguard]
    simp
  · intro user secret c hfind hsecret hs hcode hlen
    subst hcode
    have hguard : (optFalsy (some c) || ((some c).getD "").length != 6)
        = false := by
      simp [optFalsy, hlen]
      intro h
      rw [h] at hlen
      simp at hlen
    have hsf : optFalsy user.mfaSecret = false := by
      simp [optFalsy, hsecret, hs]
    have hos : optFalsy (some secret) = false := by simp [optFalsy, hs]
    refine ⟨?_, ?_, ?_⟩
    · unfold mfaVerify
      rw [hguard, hfind]
      simp only [hsecret, Option.getD_some]
      cases hv : totp secret c 2 <;> simp [hos, hv]
    · intro hv
      constructor
      · unfold mfaVerify
        rw [hguard, hfind]
        simp only [hsecret, Option.getD_some]
        simp [hos, hv]
      · unfold updateUser
        rw [List.map_map]
        apply List.map_congr_left
        intro u _
        simp only [Function.comp_apply]
        split <;> rfl
    · intro hv
      unfold mfaVerify
      rw [hguard, hfind]
      simp only [hsecret, Option.getD_some]
      simp [hos, hv]

/-- C6 witness: with an always-accepting verifier, a 6-character code
enables MFA for `alice` while keeping her secret; a 5-character code is
rejected. -/
theorem c6_witness :
    mfaVerify (fun _ _ _ => true) ⟨[aliceMfa], [], []⟩ "u1" (some "12345") =
      (.invalidLength, ⟨[aliceMfa], [], []⟩) ∧
    ((mfaVerify (fun _ _ _ => true) ⟨[aliceMfa], [], []⟩ "u1"
      (some "123456")).1 = .enabled) := by
  have h := c6_mfa_verify (fun _ _ _ => true) ⟨[aliceMfa], [], []⟩ "u1"
  refine ⟨(h (some "12345")).1 (by decide), ?_⟩
  exact ((h (some "123456")).2 aliceMfa "JBSWY3DP" "123456" (by decide)
    (by decide) (by decide) rfl (by decide)).1.mpr rfl

/-- C7: a password-valid login of an MFA-enabled active, unlocked user
returns the MFA-required response carrying only the user id (no token); and
`/mfa/login` exchanges (userId, code) for a signed token exactly when the
TOTP verifier accepts the code against the stored secret. -/
theorem c7_mfa_login_flow :
    (∀ db req now user, findUserByEmail db.users req.email = some user →
      user.isActive = true →
      failedLoginCount db.logs user.id now < 5 →
      req.password = user.password → user.mfaEnabled = true →
      (login Faults.none db req now).1 = .mfaRequired user.id) ∧
    (∀ (totp : String → String → Nat → Bool) db uid c user secret,
      findUserById db.users uid = some user → uid ≠ "" → c ≠ "" →
      user.mfaEnabled = true → user.mfaSecret = some secret → secret ≠ "" →
      (mfaLogin totp db (some uid) (some c) = .success user (mkToken user) ↔
        totp secret c 2 = true)) := by
  constructor
  · intro db req now user hfind hactive hnotlocked hpw hmfa
    have hlock : isAccountLocked false db.logs user.id now = false := by
      simp [isAccountLocked]; omega
    have hpw' : (req.password != user.password) = false := by
      simp [hpw]
    unfold login
    rw [hfind]
    simp [hactive, Faults.none, hlock, hpw', hmfa]
  · intro totp db uid c user secret hfind huid hc hmfa hsecret hs
    have h1 : optFalsy (some uid) = false := by simp [optFalsy, huid]
    have h2 : optFalsy (some c) = false := by simp [optFalsy, hc]
    have hsf : optFalsy user.mfaSecret = false := by
      simp [optFalsy, hsecret, hs]
    unfold mfaLogin
    rw [h1, h2]
    simp only [Bool.or_self, Bool.false_eq_true, reduceIte,
      Option.getD_some]
    rw [hfind]
    cases hv : totp secret c 2 <;>
      · have hv' : totp (user.mfaSecret.getD "") c 2 = totp secret c 2 := by
          simp [hsecret]
        simp [hmfa, hsf, hv', hv]

/-- C7 witness: `aliceMfa` logging in with the right password gets the
MFA-required response; the exchange endpoint then accepts her code. -/
theorem c7_witness :
    (login Faults.none ⟨[aliceMfa], [], []⟩ baseReq 1000).1 =
      .mfaRequired "u1" ∧
    mfaLogin (fun _ _ _ => true) ⟨[aliceMfa], [], []⟩ (some "u1")
      (some "123456") = .success aliceMfa (mkToken aliceMfa) := by
  refine ⟨c7_mfa_login_flow.1 ⟨[aliceMfa], [], []⟩ baseReq 1000 aliceMfa
    (by decide) (by decide) (by decide) (by decide) (by decide), ?_⟩
  exact (c7_mfa_login_flow.2 (fun _ _ _ => true) ⟨[aliceMfa], [], []⟩ "u1"
    "123456" aliceMfa "JBSWY3DP" (by decide) (by decide) (by decide)
    (by decide) (by decide) (by decide)).mpr rfl

/-- C8 (code-bug evidence): a blocked attempt writes one LOGIN_BLOCKED/INFO
entry, a wrong-password attempt one LOGIN/FAILURE entry, and a successful
attempt one LOGIN/SUCCESS entry — but an attempt for an absent or inactive
user returns 401 with **no** log write, although the code's own comment
says "we log the attempt". -/
theorem c8_one_log_write_per_attempt :
    ((login Faults.none ⟨[alice], fiveFailures, []⟩ wrongPwReq
        1000).2.logs.length = fiveFailures.length + 1 ∧
      ((login Faults.none ⟨[alice], fiveFailures, []⟩ wrongPwReq
          1000).2.logs.head?).map (fun l => (l.action, l.status)) =
        some ("LOGIN_BLOCKED", "INFO")) ∧
    ((login Faults.none ⟨[alice], [], []⟩ wrongPwReq 1000).2.logs.length = 1 ∧
      ((login Faults.none ⟨[alice], [], []⟩ wrongPwReq
          1000).2.logs.head?).map (fun l => (l.action, l.status)) =
        some ("LOGIN", "FAILURE")) ∧
    ((login Faults.none ⟨[alice], [], []⟩ baseReq 1000).2.logs.length = 1 ∧
      ((login Faults.none ⟨[alice], [], []⟩ baseReq
          1000).2.logs.head?).map (fun l => (l.action, l.status)) =
        some ("LOGIN", "SUCCESS")) ∧
    ((login Faults.none ⟨[alice], [], []⟩ ghostReq 1000).1 =
        .invalidCredentials ∧
      (login Faults.none ⟨[alice], [], []⟩ ghostReq 1000).2.logs.length = 0) ∧
    ((login Faults.none ⟨[aliceInactive], [], []⟩ baseReq 1000).1 =
        .invalidCredentials ∧
      (login Faults.none ⟨[aliceInactive], [], []⟩ baseReq
        1000).2.logs.length = 0) := by
  decide

/-- C9: side-channel failures never change the outcome of a login: with the
lockout count readable, failing log writes and a failing zero-trust block
leave the outcome identical to the fault-free run; a failing lockout-count
read makes `isAccountLocked` answer false, so the attempt is never blocked
and proceeds to password verification. -/
theorem c9_faults_do_not_change_outcome (f : Faults) (db : DB)
    (req : Request) (now : Int) :
    (f.countReadFails = false →
      (login f db req now).1 = (login Faults.none db req now).1) ∧
    (f.countReadFails = true →
      (∀ uid, isAccountLocked f.countReadFails db.logs uid now = false) ∧
      (login f db req now).1 ≠ .accountLocked ∧
      (∀ user, findUserByEmail db.users req.email = some user →
        user.isActive = true → req.password = user.password →
        (login f db req now).1 =
          (if user.mfaEnabled then .mfaRequired user.id
           else .success user (mkToken user)))) := by
  constructor
  · intro hc
    unfold login
    cases hfind : findUserByEmail db.users req.email with
    | none => rfl
    | some user =>
      cases hact : user.isActive
      · simp [hact]
      · cases hlock : isAccountLocked false db.logs user.id now <;>
          cases hpw : req.password != user.password <;>
          cases hm : user.mfaEnabled <;>
          simp [hact, hc, Faults.none, hlock, hpw, hm]
  · intro hc
    have hnolock : ∀ uid,
        isAccountLocked f.countReadFails db.logs uid now = false := by
      intro uid; simp [isAccountLocked, hc]
    refine ⟨hnolock, ?_, ?_⟩
    · unfold login
      cases hfind : findUserByEmail db.users req.email with
      | none => simp
      | some user =>
        cases hact : user.isActive <;>
          cases hpw : req.password != user.password <;>
          cases hm : user.mfaEnabled <;>
          simp [hact, hc, isAccountLocked, hpw, hm]
    · intro user hfind hact hpw
      have hpw' : (req.password != user.password) = false := by
        simp [hpw]
      unfold login
      rw [hfind]
      cases hm : user.mfaEnabled <;>
        simp [hact, hc, isAccountLocked, hpw', hm]

/-- C9 witness: with all three side channels failing, the locked-out wrong
password attempt still proceeds to password verification and is rejected as
invalid credentials, never blocked. -/
theorem c9_witness :
    isAccountLocked true fiveFailures "u1" 1000 = false ∧
    (login ⟨true, true, true⟩ ⟨[alice], fiveFailures, []⟩ wrongPwReq 1000).1 ≠
      .accountLocked ∧
    (login ⟨true, true, true⟩ ⟨[alice], fiveFailures, []⟩ baseReq 1000).1 =
      .success alice (mkToken alice) := by
  have h := c9_faults_do_not_change_outcome ⟨true, true, true⟩
    ⟨[alice], fiveFailures, []⟩ wrongPwReq 1000
  have h2 := c9_faults_do_not_change_outcome ⟨true, true, true⟩
    ⟨[alice], fiveFailures, []⟩ baseReq 1000
  refine ⟨(h.2 rfl).1 "u1", (h.2 rfl).2.1, ?_⟩
  have := (h2.2 rfl).2.2 alice (by decide) (by decide) (by decide)
  simpa using this

/-- C10: `/mfa/login` issues a signed token to any user record with MFA
configured whenever the TOTP code verifies, without consulting `isActive`
or the 15-minute lockout: even an inactive, locked-out user gets a token. -/
theorem c10_mfa_login_ignores_active_and_lockout
    (totp : String → String → Nat → Bool) (db : DB) (uid c : String)
    (user : User) (secret : String) (now : Int)
    (hfind : findUserById db.users uid = some user)
    (hinactive : user.isActive = false)
    (hlocked : isAccountLocked false db.logs user.id now = true)
    (hmfa : user.mfaEnabled = true)
    (hsecret : user.mfaSecret = some secret) (hs : secret ≠ "")
    (huid : uid ≠ "") (hc : c ≠ "")
    (hverify : totp secret c 2 = true) :
    mfaLogin totp db (some uid) (some c) = .success user (mkToken user) := by
  have h1 : optFalsy (some uid) = false := by simp [optFalsy, huid]
  have h2 : optFalsy (some c) = false := by simp [optFalsy, hc]
  have hsf : optFalsy user.mfaSecret = false := by
    simp [optFalsy, hsecret, hs]
  have hv' : totp (user.mfaSecret.getD "") c 2 = true := by
    rw [hsecret]; exact hverify
  unfold mfaLogin
  rw [h1, h2]
  simp only [Bool.or_self, Bool.false_eq_true, reduceIte, Option.getD_some]
  rw [hfind]
  simp [hmfa, hsf, hv']

/-- C10 witness: the deactivated, locked-out `aliceMfaInactive` still gets a
token from `/mfa/login` when her code verifies. -/
theorem c10_witness :
    aliceMfaInactive.isActive = false ∧
    isAccountLocked false fiveFailures "u1" 1000 = true ∧
    mfaLogin (fun _ _ _ => true) ⟨[aliceMfaInactive], fiveFailures, []⟩
      (some "u1") (some "123456") =
      .success aliceMfaInactive (mkToken aliceMfaInactive) :=
  ⟨rfl, by decide,
    c10_mfa_login_ignores_active_and_lockout (fun _ _ _ => true)
      ⟨[aliceMfaInactive], fiveFailures, []⟩ "u1" "123456" aliceMfaInactive
      "JBSWY3DP" 1000 (by decide) rfl (by decide) rfl rfl (by decide)
      (by decide) (by decide) rfl⟩

/-- C3: every lease state `signLease` persists carries the status uniquely
determined by (tenantSignature ≠ null, landlordSignature ≠ null):
FULLY_SIGNED / TENANT_SIGNED / LANDLORD_SIGNED / PENDING; and on a pending
lease, the tenant signing yields TENANT_SIGNED and the landlord then signing
yields FULLY_SIGNED. -/
theorem c3_lease_status_determined :
    (∀ leases leaseId s uid now lease' leases',
      signLease leases leaseId (some s) uid now = .ok (lease', leases') →
      lease'.signatureStatus =
        statusOf (lease'.tenantSignature != none)
          (lease'.landlordSignature != none)) ∧
    signLease [pendingLease] "L1" (some "sig-tenant") "T1" 5 =
      .ok (tenantSignedLease, [tenantSignedLease]) ∧
    tenantSignedLease.signatureStatus = "TENANT_SIGNED" ∧
    signLease [tenantSignedLease] "L1" (some "sig-landlord") "G1" 6 =
      .ok (fullySignedLease, [fullySignedLease]) ∧
    fullySignedLease.signatureStatus = "FULLY_SIGNED" := by
  refine ⟨?_, rfl, rfl, rfl, rfl⟩
  intro leases leaseId s uid now lease' leases' hok
  unfold signLease at hok
  cases hfind : findLease leases leaseId with
  | none => rw [hfind] at hok; exact absurd hok (by simp)
  | some lease =>
    rw [hfind] at hok
    cases ht : lease.tenantId == uid <;>
      cases hl : lease.landlordId == uid <;>
      simp [ht, hl] at hok
    · obtain ⟨⟨h1, h2⟩, h3⟩ := hok
      cases hT : lease.tenantSignature <;> simp [statusOf, hT]
    · obtain ⟨⟨h1, h2⟩, h3⟩ := hok
      cases hL : lease.landlordSignature <;> simp [statusOf, hL]
    · obtain ⟨⟨h1, h2⟩, h3⟩ := hok
      simp [statusOf]

/-- C3 witness: the invariant theorem applied to the concrete tenant-signing
step on the pending lease. -/
theorem c3_witness :
    tenantSignedLease.signatureStatus =
      statusOf (tenantSignedLease.tenantSignature != none)
        (tenantSignedLease.landlordSignature != none) :=
  c3_lease_status_determined.1 [pendingLease] "L1" "sig-tenant" "T1" 5
    tenantSignedLease [tenantSignedLease] rfl

/-- C4: when the caller matches exactly one party, `signLease` writes only
that party's signature and signed-at timestamp and leaves the other party's
fields (and the identity fields) unchanged; re-signing is the same statement
applied to the already-signed lease. -/
theorem c4_sign_frame (leases : List Lease) (leaseId : String)
    (sig : Option String) (uid : String) (now : Int) (lease lease' : Lease)
    (leases' : List Lease)
    (hfind : findLease leases leaseId = some lease)
    (hok : signLease leases leaseId sig uid now = .ok (lease', leases')) :
    lease'.id = lease.id ∧ lease'.tenantId = lease.tenantId ∧
    lease'.landlordId = lease.landlordId ∧
    (uid = lease.tenantId → uid ≠ lease.landlordId →
      lease'.landlordSignature = lease.landlordSignature ∧
      lease'.landlordSignedAt = lease.landlordSignedAt ∧
      lease'.tenantSignature = sig ∧
      lease'.tenantSignedAt = some now) ∧
    (uid = lease.landlordId → uid ≠ lease.tenantId →
      lease'.tenantSignature = lease.tenantSignature ∧
      lease'.tenantSignedAt = lease.tenantSignedAt ∧
      lease'.landlordSignature = sig ∧
      lease'.landlordSignedAt = some now) := by
  unfold signLease at hok
  rw [hfind] at hok
  cases ht : lease.tenantId == uid <;>
    cases hl : lease.landlordId == uid <;>
    simp [ht, hl] at hok
  · obtain ⟨⟨h1, h2⟩, h3⟩ := hok
    refine ⟨rfl, rfl, rfl, ?_, ?_⟩
    · intro h _; subst h; simp at ht
    · intro _ _; exact ⟨rfl, rfl, rfl, rfl⟩
  · obtain ⟨⟨h1, h2⟩, h3⟩ := hok
    refine ⟨rfl, rfl, rfl, ?_, ?_⟩
    · intro _ _; exact ⟨rfl, rfl, rfl, rfl⟩
    · intro h _; subst h; simp at hl
  · obtain ⟨⟨h1, h2⟩, h3⟩ := hok
    refine ⟨rfl, rfl, rfl, ?_, ?_⟩
    · intro _ h2; exact absurd (eq_of_beq hl).symm h2
    · intro _ h2; exact absurd (eq_of_beq ht).symm h2

/-- C4 witness: the tenant signing the pending lease leaves the landlord's
fields untouched. -/
theorem c4_witness :
    tenantSignedLease.landlordSignature = pendingLease.landlordSignature ∧
    tenantSignedLease.landlordSignedAt = pendingLease.landlordSignedAt ∧
    tenantSignedLease.tenantSignature = some "sig-tenant" ∧
    tenantSignedLease.tenantSignedAt = some 5 :=
  (c4_sign_frame [pendingLease] "L1" (some "sig-tenant") "T1" 5 pendingLease
    tenantSignedLease [tenantSignedLease] rfl rfl).2.2.2.1 rfl (by decide)

/-- C5: `signLease` fails with NotFound when the lease id is absent and with
Unauthorized when the signer is neither party; in both cases the route
answers 404 resp. 403 with the lease table unchanged. -/
theorem c5_sign_errors (leases : List Lease) (leaseId s uid : String)
    (now : Int) (hs : s ≠ "") :
    (findLease leases leaseId = none →
      signLease leases leaseId (some s) uid now = .error .notFound ∧
      leaseSignHandler leases leaseId (some s) uid now = (404, leases)) ∧
    (∀ lease, findLease leases leaseId = some lease →
      uid ≠ lease.tenantId → uid ≠ lease.landlordId →
      signLease leases leaseId (some s) uid now = .error .unauthorized ∧
      leaseSignHandler leases leaseId (some s) uid now = (403, leases)) := by
  constructor
  · intro hnone
    have hsign : signLease leases leaseId (some s) uid now = .error .notFound := by
      unfold signLease; rw [hnone]
    refine ⟨hsign, ?_⟩
    simp [leaseSignHandler, hsign, hs]
  · intro lease hfind htid hlid
    have ht : (lease.tenantId == uid) = false := by
      simp [beq_eq_false_iff_ne]; exact fun h => htid h.symm
    have hl : (lease.landlordId == uid) = false := by
      simp [beq_eq_false_iff_ne]; exact fun h => hlid h.symm
    have hsign : signLease leases leaseId (some s) uid now =
        .error .unauthorized := by
      unfold signLease; rw [hfind]; simp [ht, hl]
    refine ⟨hsign, ?_⟩
    simp [leaseSignHandler, hsign, hs]

/-- C5 witness: an empty table gives NotFound/404; a stranger signing the
pending lease gives Unauthorized/403. -/
theorem c5_witness :
    signLease [] "L1" (some "sig") "T1" 7 = .error .notFound ∧
    leaseSignHandler [] "L1" (some "sig") "T1" 7 = (404, []) ∧
    signLease [pendingLease] "L1" (some "sig") "X9" 7 =
      .error .unauthorized ∧
    leaseSignHandler [pendingLease] "L1" (some "sig") "X9" 7 =
      (403, [pendingLease]) := by
  have h1 := (c5_sign_errors [] "L1" "sig" "T1" 7 (by decide)).1 rfl
  have h2 := (c5_sign_errors [pendingLease] "L1" "sig" "X9" 7 (by decide)).2
    pendingLease rfl (by decide) (by decide)
  exact ⟨h1.1, h1.2, h2.1, h2.2⟩

end Rentverse
